import Mathlib

/-
Verification of the Novalnet Odoo 17 payment-form integration.

The JavaScript source extends the host checkout form (`paymentForm.include`)
with widget glue for the Novalnet hosted payment iframe.  Each handler is
embedded below as a pure Lean function over an explicit checkout context
(`this.paymentContext`), an explicit description of the checked DOM radio
(the values the `_get*` helpers read from it), and an explicit effects
record describing the observable calls the handler performs
(`_disableButton`, `_displayErrorDialog`, `_enableButton`,
`set_nn_payment_details`, `_initiatePaymentFlow`, `jsonrpc`,
`window.location`, ...).  JavaScript `undefined`/absent fields are `none`;
string truthiness (`if (x)`) is modelled explicitly.
-/

deriving instance DecidableEq for Except

namespace NovalnetCheckout

/-- The `result` object of a widget response: `status` is read by the wallet
completion handler, `statusCode` and `message` by the `getPayment` handler. -/
structure ResultInfo where
  status : String
  statusCode : Nat
  message : String
deriving DecidableEq

/-- Opaque `payment_details` blob from the widget.  The code reads only
`process_mode` (may be absent) and `type`; `blobId` stands for the rest of the
opaque payload so that distinct blobs stay distinguishable. -/
structure PaymentDetails where
  process_mode : Option String := none
  type : String := ""
  blobId : Nat := 0
deriving DecidableEq

/-- Opaque `booking_details` blob from the widget.  The code reads only
`wallet_token`, which may be absent (`none`) or present with any string
value (possibly the empty string, which is falsy in JavaScript). -/
structure BookingDetails where
  wallet_token : Option String := none
  blobId : Nat := 0
deriving DecidableEq

/-- Opaque `card_details` blob; the code only tests its presence. -/
structure CardDetails where
  blobId : Nat := 0
deriving DecidableEq

/-- A response delivered by the hosted widget to `onProcessCompletion` or to
the `getPayment` callback.  `result` may be absent (`data.result` falsy). -/
structure WidgetResponse where
  result : Option ResultInfo := none
  payment_details : PaymentDetails := {}
  booking_details : BookingDetails := {}
  card_details : Option CardDetails := none
deriving DecidableEq

/-- The checkout context `this.paymentContext`.  Every field starts absent
(`none`), matching a fresh attempt; note the source stores the widget's
`payment_details` blob under the context key `pm_data` and the widget's
`booking_details` blob under the context key `payment_details`. -/
structure PaymentContext where
  providerCode : Option String := none
  providerId : Option Nat := none
  paymentOptionId : Option Nat := none
  paymentMethodCode : Option String := none
  paymentMethodId : Option Nat := none
  tokenizationRequested : Bool := false
  tokenId : Option Nat := none
  flow : Option String := none
  mode : Option String := none
  pm_data : Option PaymentDetails := none
  payment_details : Option BookingDetails := none
  wallet_token : Option String := none
  card_details : Option CardDetails := none
deriving DecidableEq

/-- What the form's `_get*` helpers read off the currently checked payment
radio and its inline form at the moment a handler runs. -/
structure CheckedRadio where
  providerCode : String
  providerId : Nat := 0
  paymentOptionId : Nat := 0
  paymentMethodCode : String := ""
  flow : String := ""
  optionType : String := "payment_method"
  tokenizeCheckbox : Option Bool := none
deriving DecidableEq

/-- A thrown JavaScript error (here always a TypeError from reading a
property of `undefined`). -/
inductive JsError
  | typeError (msg : String)
deriving DecidableEq

/-- JavaScript truthiness of an optional string: absent (`undefined`) and
the empty string are falsy. -/
def truthyStr : Option String → Bool
  | none => false
  | some s => s ≠ ""

/-- Embedding of `set_nn_payment_details(response)` (part_000 lines
180-194): unconditionally assigns `pm_data`, `payment_details` and `flow`;
assigns `wallet_token` only when `response.booking_details.wallet_token` is
truthy, and `card_details` only when `response.card_details` is truthy
(an absent assignment leaves the previous context value in place). -/
def set_nn_payment_details (ctx : PaymentContext) (response : WidgetResponse) :
    PaymentContext :=
  { ctx with
    pm_data := some response.payment_details
    payment_details := some response.booking_details
    flow := response.payment_details.process_mode
    wallet_token := if truthyStr response.booking_details.wallet_token
                    then response.booking_details.wallet_token
                    else ctx.wallet_token
    card_details := if response.card_details.isSome
                    then response.card_details
                    else ctx.card_details }

/-- The synchronous `{status, statusText}` acknowledgment returned to the
widget by the wallet completion handler. -/
structure StatusPair where
  status : String
  statusText : String
deriving DecidableEq

/-- Observable outcome of one run of the wallet completion handler:
the returned acknowledgment, the context after the run, whether the handler
called `_disableButton(false)` (i.e. set the submit control to enabled),
whether it called `set_nn_payment_details`, and whether it called
`_initiatePaymentFlow`. -/
structure CompletionOutcome where
  ret : StatusPair
  ctx : PaymentContext
  buttonEnabled : Bool
  recorded : Bool
  initiated : Bool
deriving DecidableEq

/-- Embedding of the `onProcessCompletion` callback registered through
`novalnetPaymentIframe.walletResponse` (part_000 lines 70-96).  The handler
first calls `_disableButton(false)`; if `response.result.status` is
`'FAILURE'` it returns the fixed failure pair untouched; otherwise it writes
the checked radio's provider code into the context, and if that code is not
`'novalnet'` it returns the fixed failure pair; otherwise it records the
selection, calls `set_nn_payment_details`, fills the remaining context
fields, initiates the payment flow and returns the success pair.  Reading
`response.result.status` with `result` absent throws a TypeError. -/
def onProcessCompletion (ctx : PaymentContext) (response : WidgetResponse)
    (checkedRadio : CheckedRadio) : Except JsError CompletionOutcome :=
  match response.result with
  | none => .error (.typeError "cannot read status of undefined result")
  | some result =>
    if result.status = "FAILURE" then
      .ok { ret := { status := "FAILURE", statusText := "Failure" }
            ctx := ctx
            buttonEnabled := true
            recorded := false
            initiated := false }
    else if checkedRadio.providerCode ≠ "novalnet" then
      .ok { ret := { status := "FAILURE", statusText := "Failure" }
            ctx := { ctx with providerCode := some checkedRadio.providerCode }
            buttonEnabled := true
            recorded := false
            initiated := false }
    else
      .ok { ret := { status := "SUCCESS", statusText := "Successful" }
            ctx := { set_nn_payment_details
                       { ctx with
                         providerCode := some checkedRadio.providerCode
                         paymentOptionId := some checkedRadio.paymentOptionId
                         paymentMethodCode := some checkedRadio.paymentMethodCode }
                       response
                     with
                     providerId := some checkedRadio.providerId
                     paymentMethodId := some checkedRadio.paymentOptionId
                     tokenizationRequested :=
                       checkedRadio.tokenizeCheckbox.getD
                         (ctx.mode == some "validation") }
            buttonEnabled := true
            recorded := true
            initiated := true }

/-- How `_submitForm` dispatches after its provider check: delegate to the
generic `_super` handler, take the assign-token path, or register the
`getPayment` callback on the widget. -/
inductive SubmitRoute
  | generic
  | assignToken
  | widgetGetPayment
deriving DecidableEq

/-- Observable outcome of the synchronous part of `_submitForm`: the context
after the run, the event suppression, the `_disableButton(true)` call, the
route taken, and how many calls were made to the widget bridge
(`novalnetPaymentIframe`) and to the remote transaction client
(`processNovalnetPayment`). -/
structure SubmitOutcome where
  ctx : PaymentContext
  propagationStopped : Bool
  defaultPrevented : Bool
  buttonDisabled : Bool
  route : SubmitRoute
  widgetCalls : Nat
  remoteCalls : Nat
deriving DecidableEq

/-- Embedding of `_submitForm(ev)` (part_000 lines 100-153) up to and
including the dispatch: it stops propagation, prevents the default, disables
the submit control, writes `flow`, `paymentOptionId` and `providerCode` into
the context, then returns `_super` for a foreign provider; otherwise it
takes the assign-token path when `flow === 'token'` and an
`assignTokenRoute` exists, and otherwise fills the remaining context fields
and calls `novalnetPaymentIframe.getPayment` (the callback itself is
`getPaymentCallback` below; no remote call happens before it fires). -/
def submitForm (ctx : PaymentContext) (checkedRadio : CheckedRadio)
    (assignTokenRoute : Bool) : SubmitOutcome :=
  let ctx1 := { ctx with
                flow := some checkedRadio.flow
                paymentOptionId := some checkedRadio.paymentOptionId
                providerCode := some checkedRadio.providerCode }
  if checkedRadio.providerCode ≠ "novalnet" then
    { ctx := ctx1, propagationStopped := true, defaultPrevented := true
      buttonDisabled := true, route := .generic, widgetCalls := 0, remoteCalls := 0 }
  else if checkedRadio.flow = "token" ∧ assignTokenRoute = true then
    { ctx := ctx1, propagationStopped := true, defaultPrevented := true
      buttonDisabled := true, route := .assignToken, widgetCalls := 0, remoteCalls := 0 }
  else
    let ctx2 := { ctx1 with
                  paymentMethodCode := some checkedRadio.paymentMethodCode
                  providerId := some checkedRadio.providerId }
    let ctx3 := if checkedRadio.optionType = "token"
                then { ctx2 with tokenId := some checkedRadio.paymentOptionId }
                else { ctx2 with paymentMethodId := some checkedRadio.paymentOptionId }
    { ctx := { ctx3 with
               tokenizationRequested :=
                 checkedRadio.tokenizeCheckbox.getD (ctx.mode == some "validation") }
      propagationStopped := true, defaultPrevented := true
      buttonDisabled := true, route := .widgetGetPayment, widgetCalls := 1, remoteCalls := 0 }

/-- Observable outcome of one run of the `getPayment` result callback:
the context after the run, whether `set_nn_payment_details` and
`_initiatePaymentFlow` were called, the message passed to
`_displayErrorDialog` (if any; `_t` on a runtime string is modelled as the
identity), whether `_enableButton()` was called, and whether the ui was
unblocked (donation page only). -/
structure GetPaymentEffects where
  ctx : PaymentContext
  recorded : Bool
  initiated : Bool
  dialogMessage : Option String
  buttonReEnabled : Bool
  uiUnblocked : Bool
deriving DecidableEq

/-- Embedding of the callback passed to `novalnetPaymentIframe.getPayment`
inside `_submitForm` (part_000 lines 137-149).  The accepted branch requires
`data.result` present with `statusCode == 100`; every other response goes to
the rejection branch, which reads `data.result.message` unconditionally —
so a response with no `result` object throws a TypeError there. -/
def getPaymentCallback (ctx : PaymentContext) (data : WidgetResponse)
    (onDonationPage : Bool) : Except JsError GetPaymentEffects :=
  match data.result with
  | some r =>
    if r.statusCode = 100 then
      .ok { ctx := set_nn_payment_details ctx data
            recorded := true
            initiated := true
            dialogMessage := none
            buttonReEnabled := false
            uiUnblocked := onDonationPage }
    else
      .ok { ctx := ctx
            recorded := false
            initiated := false
            dialogMessage := some r.message
            buttonReEnabled := true
            uiUnblocked := false }
  | none => .error (.typeError "cannot read message of undefined result")

/-- A value stored under a key of the transaction route params object:
JavaScript `undefined`, or one of the context blobs. -/
inductive JsValue
  | undef
  | booking (b : BookingDetails)
  | pm (p : PaymentDetails)
  | other (n : Nat)
deriving DecidableEq

/-- Reading a possibly-absent context field as a JavaScript value:
an absent field reads as `undefined`. -/
def jsOfOpt {α : Type} (f : α → JsValue) : Option α → JsValue
  | none => .undef
  | some a => f a

/-- Embedding of `_prepareTransactionRouteParams` (part_000 lines 155-165).
A params object is a key-to-value map (`none` = key absent,
`some .undef` = key present with value `undefined`).  For a foreign
provider the generic params are returned unchanged; otherwise the spread
`{...transactionRouteParams, ...nn_payment_details}` yields an object that
always carries the keys `pay_data` (the context's `payment_details`, i.e.
the widget booking blob) and `pm_data` (the context's `pm_data`), with
value `undefined` when the context field is absent, and all other keys
taken from the generic params. -/
def prepareTransactionRouteParams (ctx : PaymentContext)
    (base : String → Option JsValue) : String → Option JsValue :=
  if ctx.providerCode ≠ some "novalnet" then base
  else fun k =>
    if k = "pay_data" then some (jsOfOpt JsValue.booking ctx.payment_details)
    else if k = "pm_data" then some (jsOfOpt JsValue.pm ctx.pm_data)
    else base k

/-- The processing values handed to the mixin: the transaction `reference`
and the provider transaction id `nn_tid`. -/
structure ProcessingValues where
  reference : String
  nn_tid : String
deriving DecidableEq

/-- How the remote `/payment/novalnet/simulate_payment` call settles:
fulfilled, rejected with an `RPCError` carrying `error.data.message`, or
rejected with any other error (identified by `errId`). -/
inductive RemoteOutcome
  | success
  | rpcError (message : String)
  | otherError (errId : Nat)
deriving DecidableEq

/-- Observable effects of `processNovalnetPayment`: the `{reference, nn_tid}`
pair sent to the endpoint, the navigation target (if any), the
`(title, message)` given to `_displayErrorDialog` (if any), whether the
optional-chained `_enableButton?.()` was evaluated and whether it actually
re-enabled the control (capability present), and the re-raised error
(if any). -/
structure RemoteEffects where
  callParams : String × String
  navigatedTo : Option String
  dialog : Option (String × String)
  enableAttempted : Bool
  enabled : Bool
  reraised : Option Nat
deriving DecidableEq

/-- Embedding of `processNovalnetPayment(processingValues, ...)`
(payment_novalnet_mixin.js lines 15-29).  `hasEnableButton` says whether the
form exposes `_enableButton` (the Express-Checkout variant does not; the
call is guarded with `?.`). -/
def processNovalnetPayment (pv : ProcessingValues) (outcome : RemoteOutcome)
    (hasEnableButton : Bool) : RemoteEffects :=
  match outcome with
  | .success =>
      { callParams := (pv.reference, pv.nn_tid)
        navigatedTo := some "/payment/status"
        dialog := none
        enableAttempted := false
        enabled := false
        reraised := none }
  | .rpcError message =>
      { callParams := (pv.reference, pv.nn_tid)
        navigatedTo := none
        dialog := some ("Payment processing failed", message)
        enableAttempted := true
        enabled := hasEnableButton
        reraised := none }
  | .otherError errId =>
      { callParams := (pv.reference, pv.nn_tid)
        navigatedTo := none
        dialog := none
        enableAttempted := false
        enabled := false
        reraised := some errId }

/-- Registration state of the widget bridge object the form currently holds
(`this.novalnetPaymentIframe`): how many callbacks are registered on its
`selectedPayment` and `walletResponse` channels. -/
structure IframeObj where
  selectedPaymentHandlers : Nat
  walletResponseHandlers : Nat
deriving DecidableEq

/-- Handler-registration state touched by `start`: the current bridge
object (if any), plus the number of live handlers attached by
`$(window).on('change', ...)` and by `$('[data-provider-code]').on('click',
...)` — jQuery `.on` adds a handler on every call, it never replaces. -/
structure FormState where
  iframe : Option IframeObj
  windowChangeHandlers : Nat
  providerClickHandlers : Nat
deriving DecidableEq

/-- The form's registration state before `start` has run. -/
def initialFormState : FormState :=
  { iframe := none, windowChangeHandlers := 0, providerClickHandlers := 0 }

/-- Embedding of the registration effects of `start` (part_000 lines
25-98): a fresh `NovalnetPaymentForm` bridge is created and one handler is
registered on each of its two channels, while one more handler is appended
to the window `change` listeners and to the provider-option `click`
listeners on every call. -/
def start (s : FormState) : FormState :=
  { iframe := some { selectedPaymentHandlers := 1, walletResponseHandlers := 1 }
    windowChangeHandlers := s.windowChangeHandlers + 1
    providerClickHandlers := s.providerClickHandlers + 1 }

/-! Sample concrete inputs used by witnesses and counterexamples. -/

/-- A fresh checkout context (all fields absent). -/
def sampleCtx : PaymentContext := {}

/-- A sample `payment_details` blob with a direct process mode. -/
def samplePm : PaymentDetails :=
  { process_mode := some "direct", type := "CREDITCARD", blobId := 1 }

/-- A sample `booking_details` blob with no wallet token. -/
def sampleBooking : BookingDetails := { wallet_token := none, blobId := 2 }

/-- A successful wallet completion response. -/
def sampleWalletSuccess : WidgetResponse :=
  { result := some { status := "SUCCESS", statusCode := 100, message := "ok" }
    payment_details := samplePm
    booking_details := sampleBooking
    card_details := none }

/-- A checked radio that belongs to a foreign provider. -/
def samplePaypalRadio : CheckedRadio :=
  { providerCode := "paypal", providerId := 7, paymentOptionId := 3
    paymentMethodCode := "card", flow := "redirect" }

/-- A checked radio that belongs to this provider. -/
def sampleNovalnetRadio : CheckedRadio :=
  { providerCode := "novalnet", providerId := 9, paymentOptionId := 4
    paymentMethodCode := "novalnet", flow := "direct" }

/-! ## Claims -/

/-- Claim C1: whenever the wallet completion result's status is not
`'FAILURE'` but the checked selection's provider code at callback-fire time
is not `'novalnet'`, the handler synchronously returns the pair
`{status: 'FAILURE', statusText: 'Failure'}` and neither records payment
details (`set_nn_payment_details`) nor initiates the payment flow. -/
theorem stale_selection_classified_failure (ctx : PaymentContext)
    (resp : WidgetResponse) (radio : CheckedRadio) (r : ResultInfo)
    (h1 : resp.result = some r) (h2 : r.status ≠ "FAILURE")
    (h3 : radio.providerCode ≠ "novalnet") :
    Except.map CompletionOutcome.ret (onProcessCompletion ctx resp radio) =
      .ok { status := "FAILURE", statusText := "Failure" } ∧
    Except.map CompletionOutcome.recorded (onProcessCompletion ctx resp radio) =
      .ok false ∧
    Except.map CompletionOutcome.initiated (onProcessCompletion ctx resp radio) =
      .ok false := by
  simp [onProcessCompletion, h1, h2, h3, Except.map]

/-- Witness for C1 at a concrete successful response with a foreign
provider checked. -/
theorem stale_selection_classified_failure_witness :
    sampleWalletSuccess.result =
      some { status := "SUCCESS", statusCode := 100, message := "ok" } ∧
    ("SUCCESS" : String) ≠ "FAILURE" ∧
    samplePaypalRadio.providerCode ≠ "novalnet" ∧
    Except.map CompletionOutcome.recorded
      (onProcessCompletion sampleCtx sampleWalletSuccess samplePaypalRadio) =
      .ok false :=
  ⟨by decide, by decide, by decide,
   (stale_selection_classified_failure sampleCtx sampleWalletSuccess
      samplePaypalRadio { status := "SUCCESS", statusCode := 100, message := "ok" }
      (by decide) (by decide) (by decide)).2.1⟩

/-- Claim C2 counterexample: on a completion the handler classifies as
Failure (non-FAILURE widget status, foreign provider checked), the checkout
context is NOT left unchanged — line 79 of part_000 writes the checked
radio's provider code into `paymentContext.providerCode` before the
provider check, so the context after the run differs from the context
before it. -/
theorem completion_failure_mutates_context :
    ¬ Except.map CompletionOutcome.ctx
        (onProcessCompletion sampleCtx sampleWalletSuccess samplePaypalRadio) =
      .ok sampleCtx := by
  decide

/-- Claim C2 as amended: when the widget itself reports `FAILURE`, the
handler returns the fixed pair `{FAILURE, 'Failure'}` and leaves the
context entirely unchanged; when it classifies a non-FAILURE completion as
Failure because the checked provider is not `'novalnet'`, it returns the
same fixed pair, records nothing and initiates nothing, and the only
context mutation is writing the checked provider code into `providerCode`.
In neither branch is any message from the widget payload propagated — the
returned `statusText` is the constant `'Failure'`. -/
theorem completion_failure_semantics (ctx : PaymentContext)
    (resp : WidgetResponse) (radio : CheckedRadio) (r : ResultInfo)
    (h1 : resp.result = some r) :
    (r.status = "FAILURE" →
      onProcessCompletion ctx resp radio =
        .ok { ret := { status := "FAILURE", statusText := "Failure" }
              ctx := ctx
              buttonEnabled := true, recorded := false, initiated := false }) ∧
    (r.status ≠ "FAILURE" → radio.providerCode ≠ "novalnet" →
      onProcessCompletion ctx resp radio =
        .ok { ret := { status := "FAILURE", statusText := "Failure" }
              ctx := { ctx with providerCode := some radio.providerCode }
              buttonEnabled := true, recorded := false, initiated := false }) := by
  constructor
  · intro hs
    simp [onProcessCompletion, h1, hs]
  · intro hs hp
    simp [onProcessCompletion, h1, hs, hp]

/-- Witness for the amended C2 at concrete inputs: a widget-reported
failure leaves the fresh context unchanged, and a stale-selection
classification only rewrites `providerCode`. -/
theorem completion_failure_semantics_witness :
    (({ result := some { status := "FAILURE", statusCode := 0, message := "no" },
        payment_details := samplePm, booking_details := sampleBooking,
        card_details := none } : WidgetResponse).result =
       some { status := "FAILURE", statusCode := 0, message := "no" }) ∧
    onProcessCompletion sampleCtx
      { result := some { status := "FAILURE", statusCode := 0, message := "no" },
        payment_details := samplePm, booking_details := sampleBooking,
        card_details := none } samplePaypalRadio =
      .ok { ret := { status := "FAILURE", statusText := "Failure" }
            ctx := sampleCtx
            buttonEnabled := true, recorded := false, initiated := false } ∧
    onProcessCompletion sampleCtx sampleWalletSuccess samplePaypalRadio =
      .ok { ret := { status := "FAILURE", statusText := "Failure" }
            ctx := { sampleCtx with providerCode := some "paypal" }
            buttonEnabled := true, recorded := false, initiated := false } :=
  ⟨by decide,
   (completion_failure_semantics sampleCtx
      { result := some { status := "FAILURE", statusCode := 0, message := "no" },
        payment_details := samplePm, booking_details := sampleBooking,
        card_details := none } samplePaypalRadio
      { status := "FAILURE", statusCode := 0, message := "no" } (by decide)).1 (by decide),
   (completion_failure_semantics sampleCtx sampleWalletSuccess samplePaypalRadio
      { status := "SUCCESS", statusCode := 100, message := "ok" }
      (by decide)).2 (by decide) (by decide)⟩

/-- A context carrying a `card_details` value left over from an earlier
recorded result. -/
def staleCardCtx : PaymentContext := { sampleCtx with card_details := some { blobId := 5 } }

/-- A widget response whose `booking_details.wallet_token` is present but
empty (falsy in JavaScript) and whose `card_details` is absent. -/
def emptyTokenResp : WidgetResponse :=
  { result := some { status := "SUCCESS", statusCode := 100, message := "ok" }
    payment_details := samplePm
    booking_details := { wallet_token := some "", blobId := 2 }
    card_details := none }

/-- Claim C3 counterexample: `set_nn_payment_details` does not set keys
"if and only if the corresponding source fields are present".  At this
concrete input the source's `wallet_token` IS present (the empty string)
yet the context key is not set — the code tests JavaScript truthiness, not
presence; and the source omits `card_details` yet the context key is NOT
absent afterwards — a value left over from an earlier record survives,
because the code never deletes the key. -/
theorem record_presence_iff_fails :
    emptyTokenResp.booking_details.wallet_token.isSome = true ∧
    (set_nn_payment_details staleCardCtx emptyTokenResp).wallet_token = none ∧
    emptyTokenResp.card_details = none ∧
    ¬ (set_nn_payment_details staleCardCtx emptyTokenResp).card_details = none := by
  decide

/-- Claim C3 as amended: on a context whose `wallet_token` and
`card_details` keys are not already set, `set_nn_payment_details` copies
the source's `payment_details` blob to the context key `pm_data`, the
source's `booking_details` blob to the context key `payment_details`,
derives `flow` from `payment_details.process_mode`, sets `wallet_token`
exactly when the source's `booking_details.wallet_token` is present and
truthy (in particular not the empty string), and sets `card_details`
exactly when the source's `card_details` is present; keys that are not set
remain entirely absent, never null or empty placeholders. -/
theorem record_payment_details (ctx : PaymentContext) (resp : WidgetResponse)
    (h1 : ctx.wallet_token = none) (h2 : ctx.card_details = none) :
    (set_nn_payment_details ctx resp).pm_data = some resp.payment_details ∧
    (set_nn_payment_details ctx resp).payment_details = some resp.booking_details ∧
    (set_nn_payment_details ctx resp).flow = resp.payment_details.process_mode ∧
    (set_nn_payment_details ctx resp).wallet_token =
      (if truthyStr resp.booking_details.wallet_token
       then resp.booking_details.wallet_token else none) ∧
    (set_nn_payment_details ctx resp).card_details = resp.card_details := by
  unfold set_nn_payment_details
  refine ⟨rfl, rfl, rfl, ?_, ?_⟩
  · simp [h1]
  · cases hc : resp.card_details <;> simp [h2, hc]

/-- Witness for the amended C3: recording, on a fresh context, a response
whose wallet token is a non-empty string and whose card details are
present sets every context key from the source. -/
theorem record_payment_details_witness :
    sampleCtx.wallet_token = none ∧
    sampleCtx.card_details = none ∧
    (set_nn_payment_details sampleCtx
      { result := some { status := "SUCCESS", statusCode := 100, message := "ok" }
        payment_details := samplePm
        booking_details := { wallet_token := some "WTOK", blobId := 2 }
        card_details := some { blobId := 8 } }).wallet_token =
      (if truthyStr (some "WTOK") then some "WTOK" else none) :=
  ⟨by decide, by decide,
   ((record_payment_details sampleCtx
      { result := some { status := "SUCCESS", statusCode := 100, message := "ok" }
        payment_details := samplePm
        booking_details := { wallet_token := some "WTOK", blobId := 2 }
        card_details := some { blobId := 8 } } (by decide) (by decide)).2.2.2.1)⟩

/-- Claim C4: when the checked selection's provider code is not
`'novalnet'`, `_submitForm` makes zero calls to the widget bridge and zero
calls to the remote transaction client, and delegates to the surrounding
generic submit handling (`_super`). -/
theorem submit_foreign_provider_delegates (ctx : PaymentContext)
    (radio : CheckedRadio) (assignTokenRoute : Bool)
    (h : radio.providerCode ≠ "novalnet") :
    (submitForm ctx radio assignTokenRoute).route = .generic ∧
    (submitForm ctx radio assignTokenRoute).widgetCalls = 0 ∧
    (submitForm ctx radio assignTokenRoute).remoteCalls = 0 := by
  simp [submitForm, h]

/-- Witness for C4 at a concrete foreign selection. -/
theorem submit_foreign_provider_delegates_witness :
    samplePaypalRadio.providerCode ≠ "novalnet" ∧
    (submitForm sampleCtx samplePaypalRadio false).route = .generic :=
  ⟨by decide,
   (submit_foreign_provider_delegates sampleCtx samplePaypalRadio false (by decide)).1⟩

/-- Claim C5: on a `getPayment` result whose `result` object is present
with a status code other than 100, the callback displays exactly the
widget-provided message, re-enables the submit control, leaves the context
unchanged, and neither records payment details nor initiates the payment
flow — so no remote call can occur. -/
theorem widget_rejection_shows_message (ctx : PaymentContext)
    (data : WidgetResponse) (onDonationPage : Bool) (r : ResultInfo)
    (h1 : data.result = some r) (h2 : r.statusCode ≠ 100) :
    getPaymentCallback ctx data onDonationPage =
      .ok { ctx := ctx
            recorded := false
            initiated := false
            dialogMessage := some r.message
            buttonReEnabled := true
            uiUnblocked := false } := by
  simp [getPaymentCallback, h1, h2]

/-- Witness for C5 at the spec's own scenario: status code 150 with message
"Card declined". -/
theorem widget_rejection_shows_message_witness :
    (({ result := some { status := "", statusCode := 150, message := "Card declined" } }
        : WidgetResponse).result =
      some { status := "", statusCode := 150, message := "Card declined" }) ∧
    (150 : Nat) ≠ 100 ∧
    getPaymentCallback sampleCtx
      { result := some { status := "", statusCode := 150, message := "Card declined" } }
      false =
      .ok { ctx := sampleCtx
            recorded := false
            initiated := false
            dialogMessage := some "Card declined"
            buttonReEnabled := true
            uiUnblocked := false } :=
  ⟨by decide, by decide,
   widget_rejection_shows_message sampleCtx
     { result := some { status := "", statusCode := 150, message := "Card declined" } }
     false { status := "", statusCode := 150, message := "Card declined" }
     (by decide) (by decide)⟩

/-- Claim C6: `processNovalnetPayment` always sends the processing values'
reference and provider transaction id; on success it navigates to the
fixed path `/payment/status`; on a classified `RPCError` it shows the
server-supplied message and evaluates the guarded `_enableButton?.()`,
which re-enables the control exactly when the form exposes it; on any
other error it re-raises the error and shows nothing. -/
theorem process_novalnet_payment_spec (pv : ProcessingValues)
    (outcome : RemoteOutcome) (hasEnableButton : Bool) :
    (processNovalnetPayment pv outcome hasEnableButton).callParams =
      (pv.reference, pv.nn_tid) ∧
    (outcome = .success →
      (processNovalnetPayment pv outcome hasEnableButton).navigatedTo =
        some "/payment/status" ∧
      (processNovalnetPayment pv outcome hasEnableButton).reraised = none) ∧
    (∀ m, outcome = .rpcError m →
      (processNovalnetPayment pv outcome hasEnableButton).dialog =
        some ("Payment processing failed", m) ∧
      (processNovalnetPayment pv outcome hasEnableButton).enableAttempted = true ∧
      (processNovalnetPayment pv outcome hasEnableButton).enabled = hasEnableButton ∧
      (processNovalnetPayment pv outcome hasEnableButton).reraised = none ∧
      (processNovalnetPayment pv outcome hasEnableButton).navigatedTo = none) ∧
    (∀ e, outcome = .otherError e →
      (processNovalnetPayment pv outcome hasEnableButton).reraised = some e ∧
      (processNovalnetPayment pv outcome hasEnableButton).dialog = none ∧
      (processNovalnetPayment pv outcome hasEnableButton).navigatedTo = none) := by
  refine ⟨?_, ?_, ?_, ?_⟩
  · cases outcome <;> rfl
  · rintro rfl
    exact ⟨rfl, rfl⟩
  · rintro m rfl
    exact ⟨rfl, rfl, rfl, rfl, rfl⟩
  · rintro e rfl
    exact ⟨rfl, rfl, rfl⟩

/-- Witness for C6: all three settle branches at concrete inputs, with the
Express-Checkout variant (no `_enableButton`) on the error branch. -/
theorem process_novalnet_payment_spec_witness :
    (processNovalnetPayment { reference := "R1", nn_tid := "T1" } .success true).navigatedTo =
      some "/payment/status" ∧
    (processNovalnetPayment { reference := "R1", nn_tid := "T1" }
        (.rpcError "Reference expired") false).dialog =
      some ("Payment processing failed", "Reference expired") ∧
    (processNovalnetPayment { reference := "R1", nn_tid := "T1" }
        (.rpcError "Reference expired") false).enabled = false ∧
    (processNovalnetPayment { reference := "R1", nn_tid := "T1" }
        (.otherError 7) true).reraised = some 7 :=
  ⟨((process_novalnet_payment_spec { reference := "R1", nn_tid := "T1" }
      .success true).2.1 rfl).1,
   ((process_novalnet_payment_spec { reference := "R1", nn_tid := "T1" }
      (.rpcError "Reference expired") false).2.2.1 "Reference expired" rfl).1,
   ((process_novalnet_payment_spec { reference := "R1", nn_tid := "T1" }
      (.rpcError "Reference expired") false).2.2.1 "Reference expired" rfl).2.2.1,
   ((process_novalnet_payment_spec { reference := "R1", nn_tid := "T1" }
      (.otherError 7) true).2.2.2 7 rfl).1⟩

/-- Claim C7 counterexample: calling `start` twice double-registers the
window-change (and provider-click) listeners — jQuery `.on` appends a new
handler on each call, so after the second call a window `change` event
triggers the handler's effect twice, not once. -/
theorem start_twice_double_registers :
    (start (start initialFormState)).windowChangeHandlers = 2 ∧
    ¬ (start (start initialFormState)).windowChangeHandlers = 1 ∧
    (start (start initialFormState)).providerClickHandlers = 2 := by
  decide

/-- Claim C7 as amended: calling `start` twice leaves the widget-channel
callbacks (selection-changed via `selectedPayment` and wallet-completion
via `walletResponse`) registered exactly once on the current bridge object,
because each call replaces the bridge with a freshly constructed one; but
the window-change and provider-click listeners accumulate — each call adds
one more, so after the second call those two events trigger their handlers
twice. -/
theorem start_twice_registration (s : FormState) :
    (start (start s)).iframe =
      some { selectedPaymentHandlers := 1, walletResponseHandlers := 1 } ∧
    (start (start s)).windowChangeHandlers = s.windowChangeHandlers + 2 ∧
    (start (start s)).providerClickHandlers = s.providerClickHandlers + 2 :=
  ⟨rfl, rfl, rfl⟩

/-- Claim C8 counterexample: the submit control is NOT disabled at the
start of a wallet-authorization finalize attempt, and NOT left disabled on
that success path — the wallet completion handler's first action is
`_disableButton(false)` (part_000 line 72), so this concrete successful
wallet completion (novalnet checked, flow initiated) runs with the control
enabled. -/
theorem wallet_success_button_enabled :
    Except.map CompletionOutcome.buttonEnabled
      (onProcessCompletion sampleCtx sampleWalletSuccess sampleNovalnetRadio) =
      .ok true ∧
    Except.map CompletionOutcome.initiated
      (onProcessCompletion sampleCtx sampleWalletSuccess sampleNovalnetRadio) =
      .ok true := by
  decide

/-- Claim C8 as amended: the submit control is disabled at the start of the
submit-driven finalize attempt, re-enabled on the widget-rejection path and
(where the capability exists) on the classified remote-error path, and left
disabled on the submit-driven success path up to navigation; the
wallet-completion handler, however, re-enables the control at its start, so
wallet-driven attempts — including successful ones — proceed with the
control enabled. -/
theorem submit_control_invariant :
    (∀ (ctx : PaymentContext) (radio : CheckedRadio) (atr : Bool),
      (submitForm ctx radio atr).buttonDisabled = true) ∧
    (∀ (ctx : PaymentContext) (data : WidgetResponse) (d : Bool) (r : ResultInfo),
      data.result = some r → r.statusCode ≠ 100 →
      Except.map GetPaymentEffects.buttonReEnabled (getPaymentCallback ctx data d) =
        .ok true) ∧
    (∀ (ctx : PaymentContext) (data : WidgetResponse) (d : Bool) (r : ResultInfo),
      data.result = some r → r.statusCode = 100 →
      Except.map GetPaymentEffects.buttonReEnabled (getPaymentCallback ctx data d) =
        .ok false) ∧
    (∀ (pv : ProcessingValues) (m : String) (hc : Bool),
      (processNovalnetPayment pv (.rpcError m) hc).enableAttempted = true ∧
      (processNovalnetPayment pv (.rpcError m) hc).enabled = hc) ∧
    (∀ (pv : ProcessingValues) (hc : Bool),
      (processNovalnetPayment pv .success hc).enableAttempted = false ∧
      (processNovalnetPayment pv .success hc).enabled = false) ∧
    (∀ (ctx : PaymentContext) (resp : WidgetResponse) (radio : CheckedRadio)
        (r : ResultInfo), resp.result = some r →
      Except.map CompletionOutcome.buttonEnabled (onProcessCompletion ctx resp radio) =
        .ok true) := by
  refine ⟨?_, ?_, ?_, ?_, ?_, ?_⟩
  · intro ctx radio atr
    unfold submitForm
    by_cases h1 : radio.providerCode ≠ "novalnet" <;>
      by_cases h2 : radio.flow = "token" ∧ atr = true <;>
        simp [h1, h2]
  · intro ctx data d r h1 h2
    simp [getPaymentCallback, h1, h2, Except.map]
  · intro ctx data d r h1 h2
    simp [getPaymentCallback, h1, h2, Except.map]
  · intro pv m hc
    exact ⟨rfl, rfl⟩
  · intro pv hc
    exact ⟨rfl, rfl⟩
  · intro ctx resp radio r h1
    by_cases h2 : r.status = "FAILURE" <;>
      by_cases h3 : radio.providerCode ≠ "novalnet" <;>
        simp [onProcessCompletion, h1, h2, h3, Except.map]

/-- Witness for the amended C8 at concrete inputs: submit disables,
widget rejection re-enables, submit success leaves disabled, remote error
re-enables where supported, remote success leaves disabled, and a wallet
completion runs enabled. -/
theorem submit_control_invariant_witness :
    (submitForm sampleCtx sampleNovalnetRadio false).buttonDisabled = true ∧
    Except.map GetPaymentEffects.buttonReEnabled
      (getPaymentCallback sampleCtx
        { result := some { status := "", statusCode := 150, message := "Card declined" } }
        false) = .ok true ∧
    Except.map GetPaymentEffects.buttonReEnabled
      (getPaymentCallback sampleCtx sampleWalletSuccess false) = .ok false ∧
    (processNovalnetPayment { reference := "R1", nn_tid := "T1" }
      (.rpcError "Reference expired") true).enabled = true ∧
    (processNovalnetPayment { reference := "R1", nn_tid := "T1" } .success true).enableAttempted =
      false ∧
    Except.map CompletionOutcome.buttonEnabled
      (onProcessCompletion sampleCtx sampleWalletSuccess samplePaypalRadio) = .ok true :=
  ⟨submit_control_invariant.1 sampleCtx sampleNovalnetRadio false,
   submit_control_invariant.2.1 sampleCtx
     { result := some { status := "", statusCode := 150, message := "Card declined" } }
     false { status := "", statusCode := 150, message := "Card declined" }
     (by decide) (by decide),
   submit_control_invariant.2.2.1 sampleCtx sampleWalletSuccess false
     { status := "SUCCESS", statusCode := 100, message := "ok" } (by decide) (by decide),
   (submit_control_invariant.2.2.2.1 { reference := "R1", nn_tid := "T1" }
     "Reference expired" true).2,
   (submit_control_invariant.2.2.2.2.1 { reference := "R1", nn_tid := "T1" } true).1,
   submit_control_invariant.2.2.2.2.2 sampleCtx sampleWalletSuccess samplePaypalRadio
     { status := "SUCCESS", statusCode := 100, message := "ok" } (by decide)⟩

/-- Claim C9: while the context's provider code is `'novalnet'`,
`_prepareTransactionRouteParams` always returns an object carrying the keys
`pay_data` and `pm_data` — with the JavaScript value `undefined` when the
corresponding context field has not been recorded yet — and for any other
provider code the generic route params are returned unchanged. -/
theorem prepare_route_params_spec (ctx : PaymentContext)
    (base : String → Option JsValue) :
    (ctx.providerCode = some "novalnet" →
      prepareTransactionRouteParams ctx base "pay_data" =
        some (jsOfOpt JsValue.booking ctx.payment_details) ∧
      prepareTransactionRouteParams ctx base "pm_data" =
        some (jsOfOpt JsValue.pm ctx.pm_data) ∧
      (ctx.payment_details = none →
          prepareTransactionRouteParams ctx base "pay_data" = some .undef) ∧
      (ctx.pm_data = none →
          prepareTransactionRouteParams ctx base "pm_data" = some .undef)) ∧
    (ctx.providerCode ≠ some "novalnet" →
      prepareTransactionRouteParams ctx base = base) := by
  constructor
  · intro h
    have hne : ("pm_data" : String) ≠ "pay_data" := by decide
    rw [prepareTransactionRouteParams, if_neg (by simp [h])]
    refine ⟨by simp, by simp [hne], ?_, ?_⟩
    · intro hp
      simp [hp, jsOfOpt]
    · intro hp
      simp [hne, hp, jsOfOpt]
  · intro h
    rw [prepareTransactionRouteParams, if_pos h]

/-- Witness for C9: with the provider set and nothing recorded, both keys
are present holding `undefined`; with a foreign provider, the generic
params come back unchanged. -/
theorem prepare_route_params_spec_witness :
    ({ sampleCtx with providerCode := some "novalnet" } : PaymentContext).providerCode =
      some "novalnet" ∧
    prepareTransactionRouteParams { sampleCtx with providerCode := some "novalnet" }
      (fun _ => none) "pay_data" = some .undef ∧
    sampleCtx.providerCode ≠ some "novalnet" ∧
    prepareTransactionRouteParams sampleCtx (fun _ => none) = (fun _ => none) :=
  ⟨by decide,
   ((prepare_route_params_spec { sampleCtx with providerCode := some "novalnet" }
      (fun _ => none)).1 (by decide)).2.2.1 (by decide),
   by decide,
   (prepare_route_params_spec sampleCtx (fun _ => none)).2 (by decide)⟩

/-- Claim C10: the `getPayment` callback is total only when the response
carries a `result` object — any response with `result` absent, or with a
status code other than 100, goes to the rejection branch, and since that
branch unconditionally reads `data.result.message`, a response with no
`result` makes the callback throw a TypeError instead of displaying an
error dialog. -/
theorem get_payment_callback_totality (ctx : PaymentContext)
    (data : WidgetResponse) (onDonationPage : Bool) :
    (data.result = none →
      getPaymentCallback ctx data onDonationPage =
        .error (.typeError "cannot read message of undefined result")) ∧
    (∀ r, data.result = some r → r.statusCode ≠ 100 →
      getPaymentCallback ctx data onDonationPage =
        .ok { ctx := ctx
              recorded := false
              initiated := false
              dialogMessage := some r.message
              buttonReEnabled := true
              uiUnblocked := false }) := by
  constructor
  · intro h
    simp [getPaymentCallback, h]
  · intro r h1 h2
    simp [getPaymentCallback, h1, h2]

/-- Witness for C10: a response with no `result` object throws; a present
result with a non-100 code lands in the dialog branch. -/
theorem get_payment_callback_totality_witness :
    (({ } : WidgetResponse).result = none) ∧
    getPaymentCallback sampleCtx { } false =
      .error (.typeError "cannot read message of undefined result") ∧
    Except.map GetPaymentEffects.dialogMessage
      (getPaymentCallback sampleCtx
        { result := some { status := "", statusCode := 402, message := "denied" } } false) =
      .ok (some "denied") :=
  ⟨by decide,
   (get_payment_callback_totality sampleCtx { } false).1 (by decide),
   by
     rw [(get_payment_callback_totality sampleCtx
        { result := some { status := "", statusCode := 402, message := "denied" } } false).2
        { status := "", statusCode := 402, message := "denied" } (by decide) (by decide)]
     rfl⟩

end NovalnetCheckout
